import Mathlib

/-!
# Verification of the SWLog logging library (src/runtime/SWLog.cpp)

Shallow embedding of the Linux branch of `SWLog.cpp`.  The logger's static
members become an explicit `LogState` record that every operation threads;
operating-system effects (directory probes, file opens, writes, closes,
console prints) are recorded as an explicit trace of `FsOp` events, and the
outcomes of the OS calls that `Init` makes (`getcwd`, `access`, `open`) are
supplied by an `FsOracle` argument.  Variadic `printf`-style expansion of the
caller's format string is not modelled: `Log` receives the already-formatted
message body, which is where the source applies truncation.
-/

/-- The four static members of `SWLog` (SWLog.cpp lines 21-28, Linux branch):
destination flag, truncation flag, file descriptor (`-1` = invalid sentinel),
and the level threshold stored as its numeric value. -/
structure LogState where
  m_bToFile : Bool
  m_bTruncateLongLog : Bool
  m_iLogFile : Int
  m_nLogLevel : Int
deriving DecidableEq, Repr

/-- Observable operating-system effects performed by the logger. -/
inductive FsOp where
  | access (path : String)
  | mkdir (path : String)
  | openFile (path : String)
  | closeFd (fd : Int)
  | lseekSet0 (fd : Int)
  | writeFd (fd : Int) (data : String)
  | fsync (fd : Int)
  | printConsole (data : String)
deriving DecidableEq, Repr

/-- Environment answers for the OS calls `Init` performs: the current working
directory (`getcwd`), whether the `Log` directory already exists (the
`access` probe), and the file descriptor returned by `open` (`-1` on
failure). -/
structure FsOracle where
  cwd : String
  dirExists : Bool
  openResult : Int
deriving DecidableEq, Repr

/-- Modelled from the spec: the `SWLOG_LEVEL` enumeration is declared in
`SWLog.h`, which is not part of the sources; the spec fixes the ordering
None(0) < Error < Warning < Info with implementation-defined spacing, so the
values are taken consecutive. -/
def LOG_NONE : Int := 0

/-- Modelled from the spec: see `LOG_NONE`. -/
def LOG_ERROR : Int := 1

/-- Modelled from the spec: see `LOG_NONE`. -/
def LOG_WARNING : Int := 2

/-- Modelled from the spec: see `LOG_NONE`. -/
def LOG_INFO : Int := 3

/-- `MAX_LINE_LENGTH` (SWLog.cpp line 19). -/
def MAX_LINE_LENGTH : Nat := 256

/-- `std::string::substr(pos, len)`: the up-to-`len` characters starting at
`pos`. -/
def substr (s : String) (pos len : Nat) : String :=
  String.mk ((s.data.drop pos).take len)

/-- Decimal rendering of `n` left-padded with zeros to width `w`, the
behaviour of the `printf` conversion `%0wd` for non-negative arguments. -/
def padZero (w n : Nat) : String :=
  String.mk (List.replicate (w - (Nat.repr n).length) '0' ++ (Nat.repr n).data)

/-- Broken-down local time, as in C's `struct tm` (`tm_year` counts years
since 1900, `tm_mon` is zero-based). -/
structure Tm where
  tm_year : Nat
  tm_mon : Nat
  tm_mday : Nat
  tm_hour : Nat
  tm_min : Nat
  tm_sec : Nat
deriving DecidableEq, Repr

/-- `strftime` with format `"%Y-%m-%d %H:%M:%S"` (SWLog.cpp line 154). -/
def strftime_YmdHMS (t : Tm) : String :=
  padZero 4 (t.tm_year + 1900) ++ "-" ++ padZero 2 (t.tm_mon + 1) ++ "-" ++
    padZero 2 t.tm_mday ++ " " ++ padZero 2 t.tm_hour ++ ":" ++
    padZero 2 t.tm_min ++ ":" ++ padZero 2 t.tm_sec

namespace SWLog

/-- `SWLog::GetLogTime` (SWLog.cpp lines 131-159, Linux branch): the current
time arrives as the broken-down seconds part `t` and the microsecond part
`tv_usec` of `gettimeofday`; `millis = tv_usec / 1000` is printed with
`format_string("[%s %04d]", buffer, millis)`. -/
def GetLogTime (t : Tm) (tv_usec : Nat) : String :=
  let millis := tv_usec / 1000
  "[" ++ strftime_YmdHMS t ++ " " ++ padZero 4 millis ++ "]"

/-- The level tag chosen by `SWLog::Log` (SWLog.cpp lines 180-192): an
unrecognized level yields the empty tag. -/
def logLevelTag (nLevel : Int) : String :=
  if nLevel = LOG_INFO then "[INFO]"
  else if nLevel = LOG_WARNING then "[WARNING]"
  else if nLevel = LOG_ERROR then "[ERROR]"
  else ""

/-- The fixed-layout header `SWLog::Log` assembles (SWLog.cpp lines 193-201):
timestamp, level tag, thread id, file name, line number and function
signature, ending in `"Message: "`. -/
def logHeader (nLevel : Int) (pszFileName pszFunctionSig : String)
    (nLineNo : Nat) (t : Tm) (tv_usec : Nat) (dwThreadID : Nat) : String :=
  GetLogTime t tv_usec ++ " " ++ logLevelTag nLevel ++
    " [ThreadID: " ++ Nat.repr dwThreadID ++ "] [" ++ pszFileName ++
    " Line: " ++ Nat.repr nLineNo ++ "] [Function: " ++ pszFunctionSig ++
    "] Message: "

/-- `SWLog::Init` (SWLog.cpp lines 41-101, Linux branch).  The destination
and truncation flags are assigned first (lines 44-45); a null file name
(`none`) together with `bToFile` fails immediately; `bToFile = false`
succeeds immediately; otherwise the `Log` directory under the current
working directory is probed (and created when absent), the path is joined
with the file name, and `open` is attempted, its result stored into
`m_iLogFile` and compared against `-1`.  Returns the new state, the boolean
result, and the trace of OS effects. -/
def Init (s : LogState) (bToFile bTruncateLongLog : Bool)
    (c_cLogFileName : Option String) (fs : FsOracle) :
    LogState × Bool × List FsOp :=
  let s1 : LogState :=
    { s with m_bToFile := bToFile, m_bTruncateLongLog := bTruncateLongLog }
  if bToFile = true ∧ c_cLogFileName = none then
    (s1, false, [])
  else if bToFile = false then
    (s1, true, [])
  else
    let logFileDirectory := fs.cwd ++ "/Log/"
    let dirOps :=
      if fs.dirExists then [FsOp.access logFileDirectory]
      else [FsOp.access logFileDirectory, FsOp.mkdir logFileDirectory]
    let logFileName := logFileDirectory ++ c_cLogFileName.getD ""
    let s2 : LogState := { s1 with m_iLogFile := fs.openResult }
    let ops := dirOps ++ [FsOp.openFile logFileName]
    if fs.openResult = -1 then (s2, false, ops) else (s2, true, ops)

/-- `SWLog::UnInit` (SWLog.cpp lines 107-124, Linux branch): close the
descriptor and reset it to `-1` when it is not already `-1`; otherwise do
nothing. -/
def UnInit (s : LogState) : LogState × List FsOp :=
  if s.m_iLogFile ≠ -1 then
    ({ s with m_iLogFile := -1 }, [FsOp.closeFd s.m_iLogFile])
  else
    (s, [])

/-- `SWLog::Log` (SWLog.cpp lines 173-257, Linux branch).  Filter first
(line 176: `nLevel <= m_nLogLevel` returns `false` at once); then build the
header, truncate the formatted body to `MAX_LINE_LENGTH` characters when
`m_bTruncateLongLog` is set, append CR-LF, and emit: to the file (seek to
start, write, fsync) when `m_bToFile`, failing with no effect when the
descriptor is `-1`; otherwise print to the console.  `strLogMsg` is the
already-expanded message body. -/
def Log (s : LogState) (nLevel : Int) (pszFileName pszFunctionSig : String)
    (nLineNo : Nat) (t : Tm) (tv_usec : Nat) (dwThreadID : Nat)
    (strLogMsg : String) : LogState × Bool × List FsOp :=
  if nLevel ≤ s.m_nLogLevel then
    (s, false, [])
  else
    let header := logHeader nLevel pszFileName pszFunctionSig nLineNo t tv_usec dwThreadID
    let strLogMsg1 :=
      if s.m_bTruncateLongLog then substr strLogMsg 0 MAX_LINE_LENGTH
      else strLogMsg
    let strLogInfo := header ++ strLogMsg1 ++ "\r\n"
    if s.m_bToFile then
      if s.m_iLogFile = -1 then
        (s, false, [])
      else
        (s, true, [FsOp.lseekSet0 s.m_iLogFile,
                   FsOp.writeFd s.m_iLogFile strLogInfo,
                   FsOp.fsync s.m_iLogFile])
    else
      (s, true, [FsOp.printConsole strLogInfo])

end SWLog

/-- An `FsOp` that puts log text on a sink: a file write or a console
print. -/
def FsOp.isEmission : FsOp → Bool
  | .writeFd _ _ => true
  | .printConsole _ => true
  | _ => false

/-- A trace emits output when it contains a file write or a console
print. -/
def emitsOutput (ops : List FsOp) : Bool :=
  ops.any FsOp.isEmission

/-! ## Helper lemmas -/

/-- `SWLog::Log` assigns to no static member: the state component of its
result is always the input state. -/
theorem Log_fst (s : LogState) (nLevel : Int) (f fn : String) (ln : Nat)
    (t : Tm) (us tid : Nat) (msg : String) :
    (SWLog.Log s nLevel f fn ln t us tid msg).1 = s := by
  simp only [SWLog.Log]
  repeat' split
  all_goals rfl

/-! ## Claims -/

/-- Claim C1: for every level `L` and configured threshold `T`, `Log` emits
output iff `L > T` numerically, and when `L <= T` it returns `false` at once
with no formatting and no I/O (result exactly `(s, false, [])`).  The
emission direction holds whenever the configured sink is usable: console
destination, or a file destination whose handle is open (SWLog.cpp lines
176-179, 217-253). -/
theorem log_filter (s : LogState) (nLevel : Int) (f fn : String) (ln : Nat)
    (t : Tm) (us tid : Nat) (msg : String)
    (h : s.m_bToFile = false ∨ s.m_iLogFile ≠ -1) :
    (emitsOutput (SWLog.Log s nLevel f fn ln t us tid msg).2.2 = true ↔
      s.m_nLogLevel < nLevel) ∧
    (nLevel ≤ s.m_nLogLevel →
      SWLog.Log s nLevel f fn ln t us tid msg = (s, false, [])) := by
  simp only [SWLog.Log]
  rcases lt_or_le s.m_nLogLevel nLevel with hlt | hle
  · rw [if_neg (by omega)]
    constructor
    · rcases h with h | h
      · simp [h, emitsOutput, FsOp.isEmission, hlt]
      · cases hb : s.m_bToFile <;>
          simp [hb, h, emitsOutput, FsOp.isEmission, hlt]
    · intro hc; omega
  · rw [if_pos hle]
    constructor
    · simp [emitsOutput]
      omega
    · intro; rfl

/-- Witness for C1: with threshold `LOG_ERROR = 1` and a console sink, a
probe at level `2` is emitted and the filter equivalence holds. -/
theorem log_filter_witness :
    ((⟨false, false, -1, 1⟩ : LogState).m_bToFile = false ∨
      (⟨false, false, -1, 1⟩ : LogState).m_iLogFile ≠ -1) ∧
    ((emitsOutput (SWLog.Log ⟨false, false, -1, 1⟩ 2 "a.cpp" "f" 10
        ⟨122, 0, 11, 9, 30, 5⟩ 83000 7 "hi").2.2 = true ↔
      (⟨false, false, -1, 1⟩ : LogState).m_nLogLevel < 2) ∧
      (2 ≤ (⟨false, false, -1, 1⟩ : LogState).m_nLogLevel →
        SWLog.Log ⟨false, false, -1, 1⟩ 2 "a.cpp" "f" 10
          ⟨122, 0, 11, 9, 30, 5⟩ 83000 7 "hi" =
          (⟨false, false, -1, 1⟩, false, []))) :=
  ⟨Or.inl rfl, log_filter _ _ _ _ _ _ _ _ _ (Or.inl rfl)⟩

/-- Claim C2: re-initialization is required to close the prior open handle,
but the code does not: starting from a state whose descriptor `5` is open, a
second successful `Init` stores the fresh descriptor `7` and the trace
contains no `close` of `5` — the old handle is leaked (SWLog.cpp lines
41-101 never call `close`). -/
theorem init_reinit_leaks_fd :
    (SWLog.Init ⟨true, false, 5, 0⟩ true false (some "test.log")
      ⟨"/tmp", true, 7⟩).1.m_iLogFile = 7 ∧
    (SWLog.Init ⟨true, false, 5, 0⟩ true false (some "test.log")
      ⟨"/tmp", true, 7⟩).2.1 = true ∧
    FsOp.closeFd 5 ∉ (SWLog.Init ⟨true, false, 5, 0⟩ true false
      (some "test.log") ⟨"/tmp", true, 7⟩).2.2 := by
  decide

/-- Counterexample to C3: `Init(true, false, nullptr)` returns `false`, yet
the state after the call differs from the state before it — the destination
flag was already switched to `File` (SWLog.cpp lines 44-49). -/
theorem init_failure_mutates_state :
    (SWLog.Init ⟨false, false, -1, 0⟩ true false none ⟨"/tmp", true, 3⟩).2.1
      = false ∧
    (SWLog.Init ⟨false, false, -1, 0⟩ true false none ⟨"/tmp", true, 3⟩).1
      ≠ ⟨false, false, -1, 0⟩ := by
  decide

/-- Claim C3 as amended: every failure is reported only through the returned
status; a failing `Log` leaves the state unchanged, while a failing `Init`
leaves the destination and truncation flags set to its arguments, the handle
either untouched (missing name) or overwritten with the `-1` sentinel
(failed open), and the threshold unchanged. -/
theorem failures_are_status_values (s : LogState) (bTo bTr : Bool)
    (name : Option String) (fs : FsOracle) (nLevel : Int) (f fn : String)
    (ln : Nat) (t : Tm) (us tid : Nat) (msg : String) :
    ((SWLog.Log s nLevel f fn ln t us tid msg).2.1 = false →
      (SWLog.Log s nLevel f fn ln t us tid msg).1 = s) ∧
    ((SWLog.Init s bTo bTr name fs).2.1 = false →
      (SWLog.Init s bTo bTr name fs).1.m_bToFile = bTo ∧
      (SWLog.Init s bTo bTr name fs).1.m_bTruncateLongLog = bTr ∧
      ((SWLog.Init s bTo bTr name fs).1.m_iLogFile = s.m_iLogFile ∨
        (SWLog.Init s bTo bTr name fs).1.m_iLogFile = -1) ∧
      (SWLog.Init s bTo bTr name fs).1.m_nLogLevel = s.m_nLogLevel) := by
  constructor
  · intro
    exact Log_fst s nLevel f fn ln t us tid msg
  · intro hfail
    simp only [SWLog.Init] at hfail ⊢
    repeat' split at hfail
    all_goals simp_all

/-- Witness for C3 (amended) at a concrete failing `Init` and filtered
`Log`. -/
theorem failures_are_status_values_witness :
    ((SWLog.Log ⟨true, false, -1, 2⟩ 3 "a.cpp" "f" 1
        ⟨122, 0, 11, 9, 30, 5⟩ 0 4 "m").2.1 = false →
      (SWLog.Log ⟨true, false, -1, 2⟩ 3 "a.cpp" "f" 1
        ⟨122, 0, 11, 9, 30, 5⟩ 0 4 "m").1 = ⟨true, false, -1, 2⟩) ∧
    ((SWLog.Init ⟨true, false, -1, 2⟩ true false none
        ⟨"/tmp", true, 3⟩).2.1 = false →
      (SWLog.Init ⟨true, false, -1, 2⟩ true false none
        ⟨"/tmp", true, 3⟩).1.m_bToFile = true ∧
      (SWLog.Init ⟨true, false, -1, 2⟩ true false none
        ⟨"/tmp", true, 3⟩).1.m_bTruncateLongLog = false ∧
      ((SWLog.Init ⟨true, false, -1, 2⟩ true false none
          ⟨"/tmp", true, 3⟩).1.m_iLogFile =
        (⟨true, false, -1, 2⟩ : LogState).m_iLogFile ∨
        (SWLog.Init ⟨true, false, -1, 2⟩ true false none
          ⟨"/tmp", true, 3⟩).1.m_iLogFile = -1) ∧
      (SWLog.Init ⟨true, false, -1, 2⟩ true false none
          ⟨"/tmp", true, 3⟩).1.m_nLogLevel =
        (⟨true, false, -1, 2⟩ : LogState).m_nLogLevel) :=
  failures_are_status_values _ _ _ _ _ _ _ _ _ _ _ _ _

/-- Counterexample to C4: with an empty (but present) file name, `Init`
performs filesystem I/O — it probes the `Log` directory and attempts an
`open` on the directory-joined empty name — because the source only checks
the name against `nullptr` (SWLog.cpp line 47). -/
theorem init_empty_name_does_io :
    (SWLog.Init ⟨false, false, -1, 0⟩ true true (some "")
      ⟨"/tmp", true, -1⟩).2.2 =
      [FsOp.access "/tmp/Log/", FsOp.openFile "/tmp/Log/"] ∧
    (SWLog.Init ⟨false, false, -1, 0⟩ true true (some "")
      ⟨"/tmp", true, -1⟩).2.2 ≠ [] := by
  decide

/-- Claim C4 as amended: `Init` with `toFile = true` and an absent (null)
file name fails immediately and performs no filesystem I/O, for every prior
state, truncation flag and environment; an empty-but-present name is not
detected as missing. -/
theorem init_null_name_no_io (s : LogState) (tr : Bool) (fs : FsOracle) :
    SWLog.Init s true tr none fs =
      ({ s with m_bToFile := true, m_bTruncateLongLog := tr }, false, []) := by
  simp [SWLog.Init]

/-- Claim C5: after `UnInit`, every `Log` call at a level above the threshold
against a file destination returns `false` and performs no write: the handle
is the `-1` sentinel (SWLog.cpp lines 117-121, 236-241). -/
theorem log_after_uninit (s : LogState) (nLevel : Int) (f fn : String)
    (ln : Nat) (t : Tm) (us tid : Nat) (msg : String)
    (h1 : s.m_bToFile = true) (h2 : s.m_nLogLevel < nLevel) :
    SWLog.Log (SWLog.UnInit s).1 nLevel f fn ln t us tid msg =
      ((SWLog.UnInit s).1, false, []) := by
  simp only [SWLog.UnInit]
  split
  · simp [SWLog.Log, h1, h2, Int.not_le.mpr h2]
  · next h =>
    simp only [ne_eq, not_not] at h
    simp [SWLog.Log, h1, h, Int.not_le.mpr h2]

/-- Witness for C5: shutting down a file-destination logger with open
descriptor `7`, then logging at level `1` over threshold `0`, yields `false`
and an empty trace. -/
theorem log_after_uninit_witness :
    (⟨true, false, 7, 0⟩ : LogState).m_bToFile = true ∧
    (⟨true, false, 7, 0⟩ : LogState).m_nLogLevel < 1 ∧
    SWLog.Log (SWLog.UnInit ⟨true, false, 7, 0⟩).1 1 "a.cpp" "f" 3
      ⟨122, 0, 11, 9, 30, 5⟩ 0 9 "x" =
      ((SWLog.UnInit ⟨true, false, 7, 0⟩).1, false, []) :=
  ⟨rfl, by decide, log_after_uninit _ _ _ _ _ _ _ _ _ rfl (by decide)⟩

/-- Claim C6: with the truncation flag set, the emitted line is exactly the
untouched header followed by the first `MAX_LINE_LENGTH = 256` characters of
the message body and CR-LF; a body of at most 256 characters is unchanged,
and a 500-character body is clipped to exactly 256 (SWLog.cpp lines
210-215). -/
theorem log_truncation (s : LogState) (nLevel : Int) (f fn : String)
    (ln : Nat) (t : Tm) (us tid : Nat) (msg : String)
    (h1 : s.m_bTruncateLongLog = true) (h2 : s.m_bToFile = false)
    (h3 : s.m_nLogLevel < nLevel) :
    (SWLog.Log s nLevel f fn ln t us tid msg).2.2 =
      [FsOp.printConsole (SWLog.logHeader nLevel f fn ln t us tid ++
        substr msg 0 MAX_LINE_LENGTH ++ "\r\n")] ∧
    (msg.length ≤ MAX_LINE_LENGTH → substr msg 0 MAX_LINE_LENGTH = msg) ∧
    (msg.length = 500 →
      (substr msg 0 MAX_LINE_LENGTH).length = MAX_LINE_LENGTH) := by
  refine ⟨?_, ?_, ?_⟩
  · simp [SWLog.Log, h1, h2, Int.not_le.mpr h3]
  · intro hle
    simp only [substr, List.drop_zero]
    rw [List.take_of_length_le hle]
  · intro h500
    have he : (substr msg 0 MAX_LINE_LENGTH).length =
        ((msg.data.drop 0).take MAX_LINE_LENGTH).length := rfl
    have hd : msg.data.length = 500 := h500
    rw [he, List.drop_zero, List.length_take, hd]
    decide

/-- Witness for C6 on a truncating console logger and the body `"hello"`. -/
theorem log_truncation_witness :
    (⟨false, true, -1, 0⟩ : LogState).m_bTruncateLongLog = true ∧
    (⟨false, true, -1, 0⟩ : LogState).m_bToFile = false ∧
    (⟨false, true, -1, 0⟩ : LogState).m_nLogLevel < 3 ∧
    ((SWLog.Log ⟨false, true, -1, 0⟩ 3 "a.cpp" "f" 4
        ⟨122, 0, 11, 9, 30, 5⟩ 0 9 "hello").2.2 =
      [FsOp.printConsole (SWLog.logHeader 3 "a.cpp" "f" 4
        ⟨122, 0, 11, 9, 30, 5⟩ 0 9 ++
        substr "hello" 0 MAX_LINE_LENGTH ++ "\r\n")] ∧
    ("hello".length ≤ MAX_LINE_LENGTH →
      substr "hello" 0 MAX_LINE_LENGTH = "hello") ∧
    ("hello".length = 500 →
      (substr "hello" 0 MAX_LINE_LENGTH).length = MAX_LINE_LENGTH)) :=
  ⟨rfl, rfl, by decide, log_truncation _ _ _ _ _ _ _ _ _ rfl rfl (by decide)⟩

/-- Counterexample to C7: `UnInit` on a Console-destination state whose
descriptor is still open (`5`) is not a no-op — the source never inspects
the destination flag, so the handle is closed and reset (SWLog.cpp lines
117-121). -/
theorem uninit_console_not_noop :
    SWLog.UnInit ⟨false, false, 5, 0⟩ =
      (⟨false, false, -1, 0⟩, [FsOp.closeFd 5]) ∧
    SWLog.UnInit ⟨false, false, 5, 0⟩ ≠ (⟨false, false, 5, 0⟩, []) := by
  decide

/-- Claim C7 as amended: `UnInit` closes the handle and resets it to the
`-1` sentinel whenever the handle is open — regardless of the destination
flag — is a no-op exactly when the handle is already closed, and running it
twice leaves the state identical to (and adds no effect beyond) running it
once. -/
theorem uninit_idempotent (s : LogState) :
    (SWLog.UnInit (SWLog.UnInit s).1).1 = (SWLog.UnInit s).1 ∧
    (SWLog.UnInit (SWLog.UnInit s).1).2 = [] ∧
    (s.m_iLogFile = -1 → SWLog.UnInit s = (s, [])) ∧
    (s.m_iLogFile ≠ -1 → SWLog.UnInit s =
      ({ s with m_iLogFile := -1 }, [FsOp.closeFd s.m_iLogFile])) := by
  simp only [SWLog.UnInit]
  split
  · next h => simp_all [SWLog.UnInit]
  · next h =>
    simp only [ne_eq, not_not] at h
    simp_all [SWLog.UnInit]

/-- Witness for C7 (amended) at a file-destination state with open
descriptor `3`. -/
theorem uninit_idempotent_witness :
    (SWLog.UnInit (SWLog.UnInit ⟨true, false, 3, 0⟩).1).1 =
      (SWLog.UnInit ⟨true, false, 3, 0⟩).1 ∧
    (SWLog.UnInit (SWLog.UnInit ⟨true, false, 3, 0⟩).1).2 = [] ∧
    ((⟨true, false, 3, 0⟩ : LogState).m_iLogFile = -1 →
      SWLog.UnInit ⟨true, false, 3, 0⟩ = (⟨true, false, 3, 0⟩, [])) ∧
    ((⟨true, false, 3, 0⟩ : LogState).m_iLogFile ≠ -1 →
      SWLog.UnInit ⟨true, false, 3, 0⟩ =
        (⟨true, false, -1, 0⟩, [FsOp.closeFd 3])) :=
  uninit_idempotent _

set_option maxRecDepth 100000 in
/-- Claim C8: `GetLogTime` renders the local time as
`[YYYY-MM-DD HH:MM:SS mmmm]` where the sub-second field is the millisecond
value `tv_usec / 1000` — in range `0..999` for any legal microsecond count —
zero-padded to a 4-digit field, with no side effects (the model is a pure
function; SWLog.cpp lines 146-157). -/
theorem getLogTime_format (t : Tm) (tv_usec : Nat) (h : tv_usec < 1000000) :
    SWLog.GetLogTime t tv_usec =
      "[" ++ strftime_YmdHMS t ++ " " ++ padZero 4 (tv_usec / 1000) ++ "]" ∧
    tv_usec / 1000 ≤ 999 ∧
    (padZero 4 (tv_usec / 1000)).length = 4 := by
  refine ⟨rfl, by omega, ?_⟩
  have h999 : tv_usec / 1000 < 1000 := by omega
  have hall : ∀ m : Nat, m < 1000 → (padZero 4 m).length = 4 := by decide
  exact hall _ h999

/-- Witness for C8 at 2022-01-11 09:30:05 with 83999 microseconds. -/
theorem getLogTime_format_witness :
    83999 < 1000000 ∧
    (SWLog.GetLogTime ⟨122, 0, 11, 9, 30, 5⟩ 83999 =
      "[" ++ strftime_YmdHMS ⟨122, 0, 11, 9, 30, 5⟩ ++ " " ++
        padZero 4 (83999 / 1000) ++ "]" ∧
    83999 / 1000 ≤ 999 ∧
    (padZero 4 (83999 / 1000)).length = 4) :=
  ⟨by decide, getLogTime_format _ _ (by decide)⟩

/-- Claim C9: `Log` never modifies any logger configuration field — for
every call, whatever it returns, the resulting state (destination flag,
truncation flag, threshold, file handle) equals the input state. -/
theorem log_frame (s : LogState) (nLevel : Int) (f fn : String) (ln : Nat)
    (t : Tm) (us tid : Nat) (msg : String) :
    (SWLog.Log s nLevel f fn ln t us tid msg).1 = s := by
  simp only [SWLog.Log]
  repeat' split
  all_goals rfl

/-- Claim C10: `Init` assigns the destination and truncation flags before
validating its arguments: `Init(true, tr, nullptr)` returns `false` yet
leaves the destination set to `File` and the truncation flag set to `tr`,
so a subsequent above-threshold `Log` against the still-invalid handle takes
the file branch and returns `false` with no write (SWLog.cpp lines 44-49,
236-241). -/
theorem init_flags_set_early (s : LogState) (tr : Bool) (fs : FsOracle)
    (nLevel : Int) (f fn : String) (ln : Nat) (t : Tm) (us tid : Nat)
    (msg : String) (h1 : s.m_iLogFile = -1) (h2 : s.m_nLogLevel < nLevel) :
    (SWLog.Init s true tr none fs).2.1 = false ∧
    (SWLog.Init s true tr none fs).1.m_bToFile = true ∧
    (SWLog.Init s true tr none fs).1.m_bTruncateLongLog = tr ∧
    SWLog.Log (SWLog.Init s true tr none fs).1 nLevel f fn ln t us tid msg =
      ((SWLog.Init s true tr none fs).1, false, []) := by
  refine ⟨by simp [SWLog.Init], by simp [SWLog.Init], by simp [SWLog.Init], ?_⟩
  simp [SWLog.Init, SWLog.Log, h1, Int.not_le.mpr h2]

/-- Witness for C10 from the default state with threshold `0` and a probe at
level `1`. -/
theorem init_flags_set_early_witness :
    (⟨false, false, -1, 0⟩ : LogState).m_iLogFile = -1 ∧
    (⟨false, false, -1, 0⟩ : LogState).m_nLogLevel < 1 ∧
    ((SWLog.Init ⟨false, false, -1, 0⟩ true true none ⟨"/tmp", true, 3⟩).2.1
        = false ∧
    (SWLog.Init ⟨false, false, -1, 0⟩ true true none
        ⟨"/tmp", true, 3⟩).1.m_bToFile = true ∧
    (SWLog.Init ⟨false, false, -1, 0⟩ true true none
        ⟨"/tmp", true, 3⟩).1.m_bTruncateLongLog = true ∧
    SWLog.Log (SWLog.Init ⟨false, false, -1, 0⟩ true true none
        ⟨"/tmp", true, 3⟩).1 1 "a.cpp" "f" 2 ⟨122, 0, 11, 9, 30, 5⟩ 0 4 "m" =
      ((SWLog.Init ⟨false, false, -1, 0⟩ true true none
        ⟨"/tmp", true, 3⟩).1, false, [])) :=
  ⟨rfl, by decide,
    init_flags_set_early _ _ _ _ _ _ _ _ _ _ _ rfl (by decide)⟩
